import Mathlib

/-!
Shallow embedding of the ai-summary-inference serving layer:
  * src/cmd/inference-python/main.py  (InferenceService: admission control,
    request registry, unary Summarize, SummarizeStream, post-processing)
  * src/cmd/tokenizer-python/main.py  (TokenizerService: Tokenize, Detokenize,
    cache read-through and degradation)

The external Model Engine (BART pipeline) and the Cache Store (Redis) are
modelled as parameters: generation outcomes, encode/decode functions and
cache read/write errors are explicit inputs of the embedded handlers.
Machine floats (confidence, timing) and wall-clock timestamps are not part of
any verified claim and are omitted from the embedding.
-/

namespace AISummary

/-! ## Request registry and admission state (inference-python/main.py)

`RequestContext.status` is one of "processing" / "completed" / "failed"
(main.py:52); the registry is `active_requests : Dict[str, RequestContext]`
plus the three counters (main.py:74-82).  Each definition below embeds one
lock-protected critical section (or one plain Python statement) of the
source, so that interleavings of concurrent handlers can be replayed as
sequences of these atomic steps. -/

inductive ReqStatus
  | processing
  | completed
  | failed
deriving DecidableEq, Repr

structure SrvState where
  active_requests : List (String × ReqStatus)
  total_requests : Nat
  successful_requests : Nat
  failed_requests : Nat
deriving DecidableEq, Repr

def initState : SrvState := ⟨[], 0, 0, 0⟩

/-- `self.max_concurrent_requests = 8` (main.py:76). -/
def max_concurrent_requests : Nat := 8

/-- Membership of an id in the active map. -/
def hasId (m : List (String × ReqStatus)) (id : String) : Bool :=
  m.any (fun p => p.1 = id)

/-- Status lookup in the active map. -/
def statusOf (m : List (String × ReqStatus)) (id : String) : Option ReqStatus :=
  (m.find? (fun p => p.1 = id)).map (fun p => p.2)

/-- Dict insert-or-replace, as `self.active_requests[request_id] = context`. -/
def dictInsert (m : List (String × ReqStatus)) (id : String) (s : ReqStatus) :
    List (String × ReqStatus) :=
  if hasId m id then m.map (fun p => if p.1 = id then (id, s) else p)
  else (id, s) :: m

/-- `_check_capacity` (main.py:152-155): one critical section reading
`len(self.active_requests) < self.max_concurrent_requests`. -/
def check_capacity (st : SrvState) : Bool :=
  st.active_requests.length < max_concurrent_requests

/-- `_add_request` (main.py:157-167): one critical section inserting the new
context (status "processing") and incrementing `total_requests`. -/
def add_request (st : SrvState) (id : String) : SrvState :=
  { st with
    active_requests := dictInsert st.active_requests id .processing
    total_requests := st.total_requests + 1 }

/-- `req_context.status = ...` (main.py:230/248/356/363): a plain assignment
outside any lock; visible through the map while the entry is present. -/
def set_status (st : SrvState) (id : String) (s : ReqStatus) : SrvState :=
  { st with
    active_requests :=
      st.active_requests.map (fun p => if p.1 = id then (p.1, s) else p) }

/-- `_remove_request` (main.py:169-183): one critical section deleting the
entry when present and incrementing exactly one outcome counter. -/
def remove_request (st : SrvState) (id : String) (success : Bool) : SrvState :=
  { active_requests := st.active_requests.filter (fun p => p.1 ≠ id)
    total_requests := st.total_requests
    successful_requests := st.successful_requests + (if success then 1 else 0)
    failed_requests := st.failed_requests + (if success then 0 else 1) }

/-- One atomic step of a handler, for replaying interleavings: `check` is the
`_check_capacity` critical section (it returns a Bool and leaves the state
unchanged), the other operations return `true`. -/
inductive RegOp
  | check
  | add (id : String)
  | setSt (id : String) (s : ReqStatus)
  | remove (id : String) (success : Bool)

def regStep (st : SrvState) : RegOp → SrvState × Bool
  | .check => (st, check_capacity st)
  | .add id => (add_request st id, true)
  | .setSt id s => (set_status st id s, true)
  | .remove id success => (remove_request st id success, true)

/-- Run a sequence of atomic steps, collecting each step's Bool result. -/
def regRun (st : SrvState) : List RegOp → SrvState × List Bool
  | [] => (st, [])
  | op :: ops =>
    let (st1, b) := regStep st op
    let (st2, bs) := regRun st1 ops
    (st2, b :: bs)

/-! ## Summary post-processing (inference-python/main.py:452-472)

Python string primitives are embedded as character-list operations (one
`Char` per code point, as in Python): `pyStrip` is `str.strip()` (restricted
to ASCII whitespace, the only whitespace occurring in the verified claims),
`pySplitDot` is `str.split('.')`, `pyJoin` is `sep.join(...)` and `pyTake n`
is the slice `[:n]`. -/

def pyStrip (s : String) : String :=
  String.mk
    (((s.data.dropWhile Char.isWhitespace).reverse.dropWhile Char.isWhitespace).reverse)

def splitChar (sep : Char) : List Char → List (List Char)
  | [] => [[]]
  | c :: rest =>
    if c = sep then [] :: splitChar sep rest
    else
      match splitChar sep rest with
      | [] => [[c]]
      | h :: t => (c :: h) :: t

def pySplitDot (s : String) : List String :=
  (splitChar '.' s.data).map String.mk

def pyJoin (sep : String) : List String → String
  | [] => ""
  | [x] => x
  | x :: xs => x ++ sep ++ pyJoin sep xs

def pyTake (n : Nat) (s : String) : String :=
  String.mk (s.data.take n)

/-- `_post_process_summary` (main.py:452-472), line by line:
`if not text` guard, `strip`, `< 10` fallback, `> 300` truncation via
`text.split('.')` and `'. '.join(sentences[:2]) + '.'`, else `text[:300] + "..."`. -/
def post_process_summary (text : String) : String :=
  if text = "" then "Summary could not be generated."
  else
    let t := pyStrip text
    if t.length < 10 then "This content provides relevant information and insights."
    else if t.length > 300 then
      let sentences := pySplitDot t
      if sentences.length > 1 then pyJoin ". " (sentences.take 2) ++ "."
      else pyTake 300 t ++ "..."
    else t

/-! ## Unary Summarize (inference-python/main.py:185-258, 370-450)

The Model Engine (`self.summarizer` pipeline, `self.tokenizer`) is external.
Its behaviour on one call is a parameter:
  * `GenOutcome.ok s`     — the pipeline returned a non-empty result whose
                            `summary_text` is `s` (main.py:402/436);
  * `GenOutcome.empty`    — the pipeline returned a falsy/empty result;
  * `GenOutcome.raise m`  — the pipeline (or the re-encode of the summary,
                            both inside the same `try`) raised `Exception(m)`.
`DecodeOutcome` likewise models `self.tokenizer.decode` on the input ids.
`encode` models `self.tokenizer.encode(·, add_special_tokens=False)` as a
total function (it is only reached when nothing raised). -/

inductive GenOutcome
  | ok (summary : String)
  | empty
  | raise (msg : String)

inductive DecodeOutcome
  | ok (text : String)
  | raise (msg : String)

structure SummarizeRequest where
  token_ids : List Nat
  original_text : String
  max_length : Nat
  request_id : String
deriving DecidableEq, Repr

structure SummarizeResponse where
  summary : String
  success : Bool
  tokens_used : Nat
  generated_token_ids : List Nat
  error : String
deriving DecidableEq, Repr

/-- gRPC status code set on the servicer context; `ok` when `set_code` is
never called. -/
inductive StatusCode
  | ok
  | resourceExhausted
  | internal
deriving DecidableEq, Repr

/-- Proto default value: `pb2.SummarizeResponse()` (main.py:198). -/
def emptySummarizeResponse : SummarizeResponse := ⟨"", false, 0, [], ""⟩

/-- `_generate_from_text` (main.py:422-450).  Every exception raised by the
pipeline or the re-encode is caught by the enclosing `try` and turned into
the error string `"Summary generation failed: ..."` with no token ids. -/
def generate_from_text (gen : GenOutcome) (encode : String → List Nat) :
    String × List Nat :=
  match gen with
  | .ok s =>
    let summary := post_process_summary (pyStrip s)
    (summary, encode summary)
  | .empty => ("Unable to generate summary from the provided text.", [])
  | .raise m => ("Summary generation failed: " ++ m, [])

/-- `_generate_from_tokens` (main.py:370-420).  The input decode has its own
`try` (main.py:383-388); the pipeline call and the re-encode share the inner
`try` (main.py:393-416) whose handler returns `"Summarization failed: ..."`.
The outermost `except` (main.py:418-420) is unreachable because every inner
operation is already guarded. -/
def generate_from_tokens (token_ids : List Nat) (dec : DecodeOutcome)
    (gen : GenOutcome) (encode : String → List Nat) : String × List Nat :=
  if token_ids = [] then ("Empty input provided.", [])
  else
    match dec with
    | .raise _ => ("Failed to decode input tokens for summarization.", [])
    | .ok _ =>
      match gen with
      | .ok s =>
        let summary := post_process_summary (pyStrip s)
        (summary, encode summary)
      | .empty => ("Unable to generate summary from the provided tokens.", [])
      | .raise m => ("Summarization failed: " ++ m, [])

/-- `Summarize` (main.py:185-258).  `freshId` stands for the timestamp id
synthesized when `request.request_id` is falsy (main.py:201).  Because the
generation helpers catch every Model Engine exception internally, the
handler's own `except` block (main.py:247-258) is never reached from the
generation path, so the admitted path unconditionally marks the context
"completed" and removes it with `success=True` (main.py:230-245). -/
def summarize (st : SrvState) (req : SummarizeRequest) (freshId : String)
    (dec : DecodeOutcome) (gen : GenOutcome) (encode : String → List Nat) :
    SrvState × SummarizeResponse × StatusCode :=
  if ¬ check_capacity st then (st, emptySummarizeResponse, .resourceExhausted)
  else
    let id := if req.request_id = "" then freshId else req.request_id
    let st1 := add_request st id
    let r :=
      if req.token_ids ≠ [] then
        let p := generate_from_tokens req.token_ids dec gen encode
        (p.1, p.2, req.token_ids.length)
      else if req.original_text ≠ "" ∧ 0 < (pyStrip req.original_text).length then
        let p := generate_from_text gen encode
        (p.1, p.2, req.original_text.length / 4)
      else ("No valid input provided for summarization.", [], 0)
    let st2 := remove_request (set_status st1 id .completed) id true
    (st2, ⟨r.1, true, r.2.2, r.2.1, ""⟩, .ok)

/-! ## SummarizeStream (inference-python/main.py:260-368) -/

structure StreamMsg where
  token : String
  is_final : Bool
  position : Nat
  generated_token_id : Nat
deriving DecidableEq, Repr

/-- Outcome of the generation-and-emission block (the inner `try`,
main.py:298-353), abstracting the Model Engine:
  * `ok s`          — the pipeline returned summary `s` and the whole
                      emission loop ran to the final message;
  * `empty`         — the pipeline returned a falsy result (main.py:338-344);
  * `raiseGen m`    — the pipeline or `tokenizer.encode` raised before any
                      token message was emitted;
  * `raiseAt s k m` — the pipeline returned summary `s` but the emission
                      loop raised after `k` token messages. -/
inductive StreamOutcome
  | ok (summary : String)
  | empty
  | raiseGen (msg : String)
  | raiseAt (summary : String) (k : Nat) (msg : String)

/-- The token-replay loop `for i, token_id in enumerate(generated_token_ids)`
(main.py:317-329): one non-final message per token id, with its zero-based
position and the decoded single-token text. -/
def tokenMsgs (decTok : Nat → String) : List Nat → Nat → List StreamMsg
  | [], _ => []
  | tid :: rest, i => ⟨decTok tid, false, i, tid⟩ :: tokenMsgs decTok rest (i + 1)

/-- The message sequence produced by the inner `try` (main.py:298-353).
`encode` models `tokenizer.encode(full_summary, add_special_tokens=False)`;
`decTok` models `tokenizer.decode([token_id], skip_special_tokens=True)`.
On `ok`, the final message has empty token, `is_final=True` and position
equal to the token count (main.py:332-337); every failure or empty outcome
yields a single terminal message with position 0. -/
def streamEmit (outcome : StreamOutcome) (encode : String → List Nat)
    (decTok : Nat → String) : List StreamMsg :=
  match outcome with
  | .ok s =>
    let ids := encode (pyStrip s)
    tokenMsgs decTok ids 0 ++ [⟨"", true, ids.length, 0⟩]
  | .empty => [⟨"Unable to generate summary for streaming.", true, 0, 0⟩]
  | .raiseGen m => [⟨"Streaming error: " ++ m, true, 0, 0⟩]
  | .raiseAt s k m =>
    let ids := encode (pyStrip s)
    tokenMsgs decTok (ids.take k) 0 ++ [⟨"Streaming error: " ++ m, true, 0, 0⟩]

/-- `SummarizeStream` (main.py:260-368).  Result: final registry state, the
emitted message sequence, and the gRPC status.
  * At capacity: no registration, no messages (main.py:268-273).
  * No usable input: the handler registers, yields one terminal message and
    `return`s (main.py:289-295) — `_remove_request` is never executed.
  * Input decode of token ids (main.py:285) is outside the inner `try`: if
    it raises, the outer `except` (main.py:362-368) marks the context failed
    and removes it with `success=False`; no message was emitted.
  * Otherwise the inner `try` produces `streamEmit outcome`, and the handler
    always marks the context "completed" and removes it with `success=True`
    (main.py:355-360) — also when the inner `try` caught a failure. -/
def summarize_stream (st : SrvState) (req : SummarizeRequest) (freshId : String)
    (dec : DecodeOutcome) (outcome : StreamOutcome) (encode : String → List Nat)
    (decTok : Nat → String) : SrvState × List StreamMsg × StatusCode :=
  if ¬ check_capacity st then (st, [], .resourceExhausted)
  else
    let id := if req.request_id = "" then freshId else req.request_id
    let st1 := add_request st id
    if req.token_ids ≠ [] then
      match dec with
      | .raise _ =>
        (remove_request (set_status st1 id .failed) id false, [], .internal)
      | .ok _ =>
        let msgs := streamEmit outcome encode decTok
        (remove_request (set_status st1 id .completed) id true, msgs, .ok)
    else if req.original_text ≠ "" ∧ 0 < (pyStrip req.original_text).length then
      let msgs := streamEmit outcome encode decTok
      (remove_request (set_status st1 id .completed) id true, msgs, .ok)
    else
      (st1, [⟨"No valid input provided for streaming.", true, 0, 0⟩], .ok)

/-! ## Tokenizer service (tokenizer-python/main.py)

The Hugging Face tokenizer is external; it is modelled by a `Tok` record:
  * `encode sp text` — the full id sequence of `text` (with or without
    special tokens per the `add_special_tokens` flag `sp`);
  * `decodeIds skip ids` — `tokenizer.decode(ids, skip_special_tokens=skip)`;
  * `convertIds ids` — `tokenizer.convert_ids_to_tokens(ids)`.
Hugging Face truncation (`max_length=n, truncation=True`) keeps the first
`n` ids of the full encoding; the embedding uses `List.take` accordingly.
The Redis client is modelled as an association-list store (`setex` is a
cons, which together with first-match lookup gives overwrite semantics);
a per-call `readErr` / `writeErr` flag injects the `try/except`-caught
Cache Store failures. -/

structure Tok where
  encode : Bool → String → List Nat
  decodeIds : Bool → List Nat → String
  convertIds : List Nat → List String

structure TokenizeRequest where
  text : String
  model_name : String
  max_tokens : Int
  include_special_tokens : Bool
deriving DecidableEq, Repr

structure TokenizeResponse where
  token_ids : List Nat
  token_strings : List String
  token_count : Nat
  truncated_text : String
  was_truncated : Bool
  model_used : String
  cache_status : String
  success : Bool
  error : String
deriving DecidableEq, Repr

structure DetokenizeRequest where
  token_ids : List Nat
  model_name : String
  skip_special_tokens : Bool
deriving DecidableEq, Repr

structure DetokenizeResponse where
  text : String
  token_count : Nat
  model_used : String
  cache_status : String
  success : Bool
  error : String
deriving DecidableEq, Repr

/-- The JSON payload cached for a Tokenize result (main.py:162-168). -/
structure CachedTok where
  token_ids : List Nat
  token_strings : List String
  truncated_text : String
  was_truncated : Bool
deriving DecidableEq, Repr

/-- A configured Cache Store: association list, newest entry first. -/
def CacheStore (α : Type) : Type := List (String × α)

def cacheGet {α : Type} (s : CacheStore α) (key : String) : Option α :=
  (s.find? (fun p => p.1 = key)).map (fun p => p.2)

def cacheSet {α : Type} (s : CacheStore α) (key : String) (v : α) : CacheStore α :=
  (key, v) :: s

/-- `_cache_key` (main.py:92-97): a deterministic digest of
`f"{text_or_tokens}|{model_name}|{kwargs}"`.  The md5 hex digest is modelled
by the digested content itself (the digest step is a fixed function of the
content, and no claim depends on its literal shape). -/
def cache_key (opKind text_or_tokens model_name kwargs : String) : String :=
  opKind ++ ":" ++ text_or_tokens ++ "|" ++ model_name ++ "|" ++ kwargs

/-- `max_length = min(request.max_tokens, 1024) if request.max_tokens > 0
else 1024` (main.py:139). -/
def clamp_max_tokens (mt : Int) : Nat :=
  if 0 < mt then (min mt 1024).toNat else 1024

/-- `_get_tokenizer` / `actual_model` resolution (main.py:88-90, 108):
an unknown model name falls back to the configured default. -/
def actualModel (knownModels : List String) (defaultModel name : String) : String :=
  if name ∈ knownModels then name else defaultModel

/-- The computing branch of `Tokenize` (main.py:138-156): clamp, encode with
truncation (Hugging Face keeps the first `max_length` ids), detect
truncation by comparing the output length to the ceiling, and reconstruct
the retained text on truncation. -/
def tokenize_compute (tok : Tok) (am : String) (req : TokenizeRequest) :
    TokenizeResponse :=
  let max_length := clamp_max_tokens req.max_tokens
  let token_ids := (tok.encode req.include_special_tokens req.text).take max_length
  let token_strings := tok.convertIds token_ids
  let was_truncated : Bool := max_length ≤ token_ids.length
  let truncated_text :=
    if ¬ was_truncated then req.text else tok.decodeIds true token_ids
  ⟨token_ids, token_strings, token_ids.length, truncated_text,
    was_truncated, am, "miss", true, ""⟩

/-- `Tokenize` (main.py:99-195).  Arguments beyond the request: the loaded
tokenizer, the known-model table, the optional cache store, and the two
error-injection flags for the guarded cache read (main.py:116-136) and the
guarded cache write (main.py:160-171).  `cache_status` starts as "miss"
(main.py:113) and is set to "hit" only on a successful cached read; with no
Redis client it is returned unchanged as "miss". -/
def tokenize (tok : Tok) (knownModels : List String) (defaultModel : String)
    (store : Option (CacheStore CachedTok)) (readErr writeErr : Bool)
    (req : TokenizeRequest) :
    TokenizeResponse × Option (CacheStore CachedTok) :=
  let am := actualModel knownModels defaultModel req.model_name
  let key := cache_key "tokenize" req.text am
    (toString req.max_tokens ++ "|" ++ toString req.include_special_tokens)
  let hit : Option CachedTok :=
    match store with
    | none => none
    | some s => if readErr then none else cacheGet s key
  match hit with
  | some c =>
    (⟨c.token_ids, c.token_strings, c.token_ids.length, c.truncated_text,
      c.was_truncated, am, "hit", true, ""⟩, store)
  | none =>
    let resp := tokenize_compute tok am req
    let store1 :=
      match store with
      | none => none
      | some s =>
        if writeErr then some s
        else some (cacheSet s key
          ⟨resp.token_ids, resp.token_strings, resp.truncated_text,
            resp.was_truncated⟩)
    (resp, store1)

/-- The text cached for a Detokenize result (main.py:245-249). -/
structure CachedDetok where
  text : String
deriving DecidableEq, Repr

/-- The computing branch of `Detokenize` (main.py:233-240). -/
def detokenize_compute (tok : Tok) (am : String) (req : DetokenizeRequest) :
    DetokenizeResponse :=
  ⟨tok.decodeIds req.skip_special_tokens req.token_ids,
    req.token_ids.length, am, "miss", true, ""⟩

/-- `Detokenize` (main.py:197-273), same cache discipline as `Tokenize`. -/
def detokenize (tok : Tok) (knownModels : List String) (defaultModel : String)
    (store : Option (CacheStore CachedDetok)) (readErr writeErr : Bool)
    (req : DetokenizeRequest) :
    DetokenizeResponse × Option (CacheStore CachedDetok) :=
  let am := actualModel knownModels defaultModel req.model_name
  let key := cache_key "detokenize" (toString req.token_ids) am
    (toString req.skip_special_tokens)
  let hit : Option CachedDetok :=
    match store with
    | none => none
    | some s => if readErr then none else cacheGet s key
  match hit with
  | some c =>
    (⟨c.text, req.token_ids.length, am, "hit", true, ""⟩, store)
  | none =>
    let resp := detokenize_compute tok am req
    let store1 :=
      match store with
      | none => none
      | some s =>
        if writeErr then some s
        else some (cacheSet s key ⟨resp.text⟩)
    (resp, store1)

/-! ## Concrete instances used in counterexamples and witnesses -/

/-- A concrete registry state with seven in-flight requests (one below the
ceiling of eight). -/
def raceInit : SrvState :=
  ⟨[("r1", .processing), ("r2", .processing), ("r3", .processing),
    ("r4", .processing), ("r5", .processing), ("r6", .processing),
    ("r7", .processing)], 7, 0, 0⟩

/-- The interleaving of two concurrent Summarize callers in which both run
`_check_capacity` before either runs `_add_request`. -/
def raceOps : List RegOp := [.check, .check, .add "rA", .add "rB"]

/-- Default message used as the `getD` fallback in indexing statements; it is
never selected, since every index used is in range. -/
def dfltMsg : StreamMsg := ⟨"", false, 0, 0⟩

/-- A concrete tokenizer for witnesses: one token per character code. -/
def charTok : Tok :=
  ⟨fun _ s => s.data.map Char.toNat,
    fun _ ids => String.mk (ids.map Char.ofNat),
    fun ids => ids.map toString⟩

/-! ## Claim theorems -/

/-- C1: the capacity check (main.py:152-155) and the registry insertion
(main.py:157-167) are two separate critical sections, not one atomic
admission step.  From a state with 7 of 8 slots occupied, the interleaving
check-check-add-add lets both callers pass the check against the stale
count 7 and both register, leaving 9 active requests — above the ceiling —
before any inference work begins.  This refutes the claimed atomicity. -/
theorem C1_capacity_race :
    (regRun raceInit raceOps).2 = [true, true, true, true] ∧
    (regRun raceInit raceOps).1.active_requests.length = 9 ∧
    max_concurrent_requests = 8 := by decide

/-- C2: an admitted SummarizeStream call with no usable input reaches a
terminal outcome (its single terminal message is emitted and the stream
ends, main.py:289-295) yet its id is never removed from the active registry
and neither outcome counter is incremented: the handler `return`s before
`_remove_request`, leaking the admission slot. -/
theorem C2_stream_noinput_leak :
    summarize_stream initState ⟨[], "   ", 150, "s1"⟩ "fresh" (.ok "") .empty
        (fun _ => []) (fun _ => "") =
      (⟨[("s1", .processing)], 1, 0, 0⟩,
       [⟨"No valid input provided for streaming.", true, 0, 0⟩], .ok) := by
  decide

/-- C3, counterexample: a unary Summarize call in which the Model Engine
raises during generation returns a response with `success=True` (the error
message is embedded in the summary text) and leaves the gRPC status OK —
neither failure channel is set, refuting the claimed dual-channel
internal-error signaling. -/
theorem C3_counterexample :
    (summarize initState ⟨[], "A long article about foxes.", 150, "u1"⟩ "fresh"
        (.ok "") (.raise "CUDA error") (fun _ => [])).2 =
      (⟨"Summary generation failed: CUDA error", true, 6, [], ""⟩, .ok) := by
  decide

/-- C3, amended: when the Model Engine raises during generation, encode or
decode, the exception is caught inside the generation helper
(main.py:383-388, 414-416, 448-450): the call returns `success=True` with
the error message as the summary text and empty `generated_token_ids`, the
gRPC status stays OK, and the request is recorded as successful. -/
theorem C3_model_failure_success_true
    (st : SrvState) (req : SummarizeRequest) (freshId msg : String)
    (dec : DecodeOutcome) (encode : String → List Nat)
    (hcap : check_capacity st = true)
    (hin : req.token_ids ≠ [] ∨
      (req.original_text ≠ "" ∧ 0 < (pyStrip req.original_text).length)) :
    (summarize st req freshId dec (.raise msg) encode).2.1.success = true ∧
    (summarize st req freshId dec (.raise msg) encode).2.2 = .ok ∧
    (summarize st req freshId dec (.raise msg) encode).2.1.generated_token_ids = [] ∧
    ((summarize st req freshId dec (.raise msg) encode).2.1.summary =
        "Summarization failed: " ++ msg ∨
      (summarize st req freshId dec (.raise msg) encode).2.1.summary =
        "Summary generation failed: " ++ msg ∨
      (summarize st req freshId dec (.raise msg) encode).2.1.summary =
        "Failed to decode input tokens for summarization.") ∧
    (summarize st req freshId dec (.raise msg) encode).1.successful_requests =
      st.successful_requests + 1 ∧
    (summarize st req freshId dec (.raise msg) encode).1.failed_requests =
      st.failed_requests := by
  by_cases htok : req.token_ids = []
  · rcases hin with h | ⟨htext, hlen⟩
    · exact absurd htok h
    · simp [summarize, hcap, htok, htext, hlen, generate_from_text,
        remove_request, set_status, add_request]
  · cases dec <;>
      simp [summarize, hcap, htok, generate_from_tokens,
        remove_request, set_status, add_request]

/-- C3, witness: the amended theorem applied to a concrete text request with
a raising engine. -/
theorem C3_witness :
    (summarize initState ⟨[], "hello world article", 150, "u2"⟩ "f" (.ok "")
        (.raise "boom") (fun _ => [])).2.1.success = true :=
  (C3_model_failure_success_true initState ⟨[], "hello world article", 150, "u2"⟩
    "f" "boom" (.ok "") (fun _ => []) (by decide) (.inr (by decide))).1

/-- C4, counterexample: a SummarizeStream call whose Model Engine raises
during generation is recorded as successful — the context is marked
completed and `successful_requests` (not `failed_requests`) is incremented
(main.py:346-360), refuting the claim that such a failure is recorded as
Failed. -/
theorem C4_counterexample :
    summarize_stream initState ⟨[], "long article text", 150, "v1"⟩ "f" (.ok "")
        (.raiseGen "OOM") (fun _ => []) (fun _ => "") =
      (⟨[], 1, 1, 0⟩, [⟨"Streaming error: OOM", true, 0, 0⟩], .ok) := by decide

/-- C4, amended: a Model Engine failure during generation is caught inside
the generation helper (unary, main.py:414-416/448-450) or the inner `try`
(streaming, main.py:346-353), and the request is then recorded as
Completed/successful: `successful_requests` increments and
`failed_requests` does not, in the unary path and in both streaming failure
shapes (failure before any token message and failure mid-emission). -/
theorem C4_model_failure_recorded_success
    (st : SrvState) (req : SummarizeRequest) (freshId msg dtext s : String)
    (k : Nat) (dec : DecodeOutcome) (encode : String → List Nat)
    (decTok : Nat → String)
    (hcap : check_capacity st = true)
    (hin : req.token_ids ≠ [] ∨
      (req.original_text ≠ "" ∧ 0 < (pyStrip req.original_text).length)) :
    ((summarize st req freshId dec (.raise msg) encode).1.successful_requests =
        st.successful_requests + 1 ∧
      (summarize st req freshId dec (.raise msg) encode).1.failed_requests =
        st.failed_requests) ∧
    ((summarize_stream st req freshId (.ok dtext) (.raiseGen msg) encode
          decTok).1.successful_requests = st.successful_requests + 1 ∧
      (summarize_stream st req freshId (.ok dtext) (.raiseGen msg) encode
          decTok).1.failed_requests = st.failed_requests) ∧
    ((summarize_stream st req freshId (.ok dtext) (.raiseAt s k msg) encode
          decTok).1.successful_requests = st.successful_requests + 1 ∧
      (summarize_stream st req freshId (.ok dtext) (.raiseAt s k msg) encode
          decTok).1.failed_requests = st.failed_requests) := by
  by_cases htok : req.token_ids = []
  · rcases hin with h | ⟨htext, hlen⟩
    · exact absurd htok h
    · simp [summarize, summarize_stream, hcap, htok, htext, hlen,
        generate_from_text, remove_request, set_status, add_request]
  · cases dec <;>
      simp [summarize, summarize_stream, hcap, htok, generate_from_tokens,
        remove_request, set_status, add_request]

/-- C4, witness: the amended theorem applied to a concrete text request. -/
theorem C4_witness :
    (summarize_stream initState ⟨[], "some long text", 150, "v2"⟩ "f" (.ok "")
        (.raiseGen "err") (fun _ => []) (fun _ => "")).1.successful_requests =
      initState.successful_requests + 1 :=
  (C4_model_failure_recorded_success initState ⟨[], "some long text", 150, "v2"⟩
    "f" "err" "" "" 0 (.ok "") (fun _ => []) (fun _ => "") (by decide)
    (.inr (by decide))).2.1.1

/-- C5, counterexample: there is no single fixed fallback sentence for
trimmed summaries shorter than 10 characters — the empty raw summary is
replaced by "Summary could not be generated." (main.py:454-455) while a
whitespace-only raw summary is replaced by "This content provides relevant
information and insights." (main.py:461-462), so the claim's "the fixed
fallback sentence" fails on the empty input. -/
theorem C5_counterexample :
    (pyStrip "").length < 10 ∧ (pyStrip " ").length < 10 ∧
    post_process_summary "" ≠ post_process_summary " " := by decide

/-- C5, amended: the post-processed summary is characterized as: the fixed
sentence "Summary could not be generated." for the empty raw text; the
fixed fallback sentence for a non-empty raw text whose trimmed form is
shorter than 10 characters; the trimmed text itself when its length is
between 10 and 300; the first two '.'-delimited segments joined by ". "
plus "." when the trimmed text is longer than 300 characters and at least
two segments exist; otherwise the first 300 characters plus the "..."
ellipsis marker. -/
theorem C5_post_process_characterization (text : String) :
    (text = "" → post_process_summary text = "Summary could not be generated.") ∧
    (text ≠ "" → (pyStrip text).length < 10 →
      post_process_summary text =
        "This content provides relevant information and insights.") ∧
    (10 ≤ (pyStrip text).length → (pyStrip text).length ≤ 300 →
      post_process_summary text = pyStrip text) ∧
    (300 < (pyStrip text).length → 2 ≤ (pySplitDot (pyStrip text)).length →
      post_process_summary text =
        pyJoin ". " ((pySplitDot (pyStrip text)).take 2) ++ ".") ∧
    (300 < (pyStrip text).length → (pySplitDot (pyStrip text)).length < 2 →
      post_process_summary text = pyTake 300 (pyStrip text) ++ "...") := by
  refine ⟨fun h => by simp [post_process_summary, h], fun h h10 => ?_,
    fun h10 h300 => ?_, fun h300 h2 => ?_, fun h300 h2 => ?_⟩
  · simp [post_process_summary, h, h10]
  · have hne : text ≠ "" := by
      intro h
      rw [h] at h10
      simp [pyStrip] at h10
    have hlt : ¬ (pyStrip text).length < 10 := by omega
    have hgt : ¬ (pyStrip text).length > 300 := by omega
    simp [post_process_summary, hne, hlt, hgt]
  · have hne : text ≠ "" := by
      intro h
      rw [h] at h300
      simp [pyStrip] at h300
    have hlt : ¬ (pyStrip text).length < 10 := by omega
    have hgt : (pyStrip text).length > 300 := h300
    have hseg : (pySplitDot (pyStrip text)).length > 1 := by omega
    simp [post_process_summary, hne, hlt, hgt, hseg]
  · have hne : text ≠ "" := by
      intro h
      rw [h] at h300
      simp [pyStrip] at h300
    have hlt : ¬ (pyStrip text).length < 10 := by omega
    have hgt : (pyStrip text).length > 300 := h300
    have hseg : ¬ (pySplitDot (pyStrip text)).length > 1 := by omega
    simp [post_process_summary, hne, hlt, hgt, hseg]

/-- C5, witness: the characterization applied to the empty summary and to a
well-formed short summary. -/
theorem C5_witness :
    post_process_summary "" = "Summary could not be generated." ∧
    post_process_summary " a solid summary. " = pyStrip " a solid summary. " :=
  ⟨(C5_post_process_characterization "").1 rfl,
    (C5_post_process_characterization " a solid summary. ").2.2.1 (by decide)
      (by decide)⟩

theorem tokenMsgs_length (decTok : Nat → String) (l : List Nat) (i : Nat) :
    (tokenMsgs decTok l i).length = l.length := by
  induction l generalizing i with
  | nil => rfl
  | cons a t ih => simp [tokenMsgs, ih]

theorem tokenMsgs_nonfinal (decTok : Nat → String) (l : List Nat) (i : Nat) :
    ∀ m ∈ tokenMsgs decTok l i, m.is_final = false := by
  induction l generalizing i with
  | nil => intro m hm; simp [tokenMsgs] at hm
  | cons a t ih =>
    intro m hm
    rcases List.mem_cons.mp hm with h | h
    · rw [h]
    · exact ih (i + 1) m h

theorem tokenMsgs_getD (decTok : Nat → String) (l : List Nat) (d : StreamMsg) :
    ∀ i j, j < l.length →
      (tokenMsgs decTok l i).getD j d =
        ⟨decTok (l.getD j 0), false, i + j, l.getD j 0⟩ := by
  induction l with
  | nil => intro i j hj; simp at hj
  | cons a t ih =>
    intro i j hj
    cases j with
    | zero => simp [tokenMsgs]
    | succ jj =>
      have hjj : jj < t.length := by simpa using hj
      simp only [tokenMsgs, List.getD_cons_succ]
      rw [ih (i + 1) jj hjj]
      have hadd : i + 1 + jj = i + (jj + 1) := by omega
      rw [hadd]

theorem nonfinal_filter_length (A : List StreamMsg)
    (hA : ∀ m ∈ A, m.is_final = false) :
    (A.filter (fun m => !m.is_final)).length = A.length := by
  induction A with
  | nil => rfl
  | cons a t ih =>
    have ha := hA a (List.mem_cons_self a t)
    simp [List.filter_cons, ha, ih (fun m hm => hA m (List.mem_cons_of_mem a hm))]

/-- In a message list made of non-final messages followed by one terminal
message, the terminal marker appears only at the last index. -/
theorem final_only_last (A : List StreamMsg) (x : StreamMsg)
    (hA : ∀ m ∈ A, m.is_final = false) (i : Nat)
    (hi : i < (A ++ [x]).length)
    (hf : ((A ++ [x]).getD i dfltMsg).is_final = true) :
    i = (A ++ [x]).length - 1 := by
  rcases Nat.lt_or_ge i A.length with h | h
  · exfalso
    rw [List.getD_append _ _ _ _ h, List.getD_eq_getElem _ _ h] at hf
    have hmem : A[i] ∈ A := List.getElem_mem h
    rw [hA _ hmem] at hf
    exact Bool.false_ne_true hf
  · simp only [List.length_append, List.length_singleton] at hi ⊢
    omega

/-- C6: for every admitted SummarizeStream call whose generation produces a
summary, the non-final messages are exactly one per token of the
re-tokenized summary (`tokenizer.encode(full_summary.strip())`), each
non-final message carries its zero-based position, and the final message
carries the final marker, an empty token field and position equal to the
total token count. -/
theorem C6_stream_protocol
    (st : SrvState) (req : SummarizeRequest) (freshId dtext s : String)
    (encode : String → List Nat) (decTok : Nat → String)
    (hcap : check_capacity st = true)
    (hin : req.token_ids ≠ [] ∨
      (req.original_text ≠ "" ∧ 0 < (pyStrip req.original_text).length)) :
    ((summarize_stream st req freshId (.ok dtext) (.ok s) encode
        decTok).2.1.filter (fun m => !m.is_final)).length =
      (encode (pyStrip s)).length ∧
    (∀ i, i < (encode (pyStrip s)).length →
      ((summarize_stream st req freshId (.ok dtext) (.ok s) encode
          decTok).2.1.getD i dfltMsg).is_final = false ∧
      ((summarize_stream st req freshId (.ok dtext) (.ok s) encode
          decTok).2.1.getD i dfltMsg).position = i) ∧
    (summarize_stream st req freshId (.ok dtext) (.ok s) encode
        decTok).2.1.getD (encode (pyStrip s)).length dfltMsg =
      ⟨"", true, (encode (pyStrip s)).length, 0⟩ ∧
    (summarize_stream st req freshId (.ok dtext) (.ok s) encode
        decTok).2.1.length = (encode (pyStrip s)).length + 1 := by
  have hmsgs : (summarize_stream st req freshId (.ok dtext) (.ok s) encode
      decTok).2.1 =
      tokenMsgs decTok (encode (pyStrip s)) 0 ++
        [⟨"", true, (encode (pyStrip s)).length, 0⟩] := by
    by_cases htok : req.token_ids = []
    · rcases hin with h | ⟨htext, hlen⟩
      · exact absurd htok h
      · simp [summarize_stream, hcap, htok, htext, hlen, streamEmit]
    · simp [summarize_stream, hcap, htok, streamEmit]
  rw [hmsgs]
  refine ⟨?_, fun i hi => ?_, ?_, ?_⟩
  · simp [List.filter_append, List.filter_cons,
      nonfinal_filter_length _ (tokenMsgs_nonfinal decTok _ 0), tokenMsgs_length]
  · have hiA : i < (tokenMsgs decTok (encode (pyStrip s)) 0).length := by
      rw [tokenMsgs_length]; exact hi
    rw [List.getD_append _ _ _ _ hiA, tokenMsgs_getD decTok _ dfltMsg 0 i hi]
    exact ⟨rfl, Nat.zero_add i⟩
  · have hle : (tokenMsgs decTok (encode (pyStrip s)) 0).length ≤
        (encode (pyStrip s)).length := by rw [tokenMsgs_length]
    rw [List.getD_append_right _ _ _ _ hle, tokenMsgs_length]
    simp
  · simp [List.length_append, tokenMsgs_length]

/-- C6, witness: the protocol theorem applied to a concrete stream whose
re-tokenized summary has two tokens. -/
theorem C6_witness :
    ((summarize_stream initState ⟨[], "source text", 150, "w6"⟩ "f" (.ok "")
        (.ok " tok one ") (fun _ => [5, 9]) (fun n => toString n)).2.1.filter
        (fun m => !m.is_final)).length = 2 :=
  (C6_stream_protocol initState ⟨[], "source text", 150, "w6"⟩ "f" ""
    " tok one " (fun _ => [5, 9]) (fun n => toString n) (by decide)
    (.inr (by decide))).1

/-- Every message sequence of the inner generation-and-emission block is a
run of non-final messages followed by exactly one terminal message. -/
theorem streamEmit_shape (outcome : StreamOutcome) (encode : String → List Nat)
    (decTok : Nat → String) :
    ∃ A x, streamEmit outcome encode decTok = A ++ [x] ∧
      ∀ m ∈ A, m.is_final = false := by
  cases outcome with
  | ok s => exact ⟨_, _, rfl, tokenMsgs_nonfinal decTok _ 0⟩
  | empty => exact ⟨[], _, rfl, by simp⟩
  | raiseGen m => exact ⟨[], _, rfl, by simp⟩
  | raiseAt s k m => exact ⟨_, _, rfl, tokenMsgs_nonfinal decTok _ 0⟩

/-- C7: in every SummarizeStream response sequence — normal completion,
empty model output, invalid input, admission rejection, input-decode
failure, or mid-stream failure — a message carrying the final marker occurs
only at the last position of the sequence: the terminal message is
absorbing. -/
theorem C7_terminal_absorbing
    (st : SrvState) (req : SummarizeRequest) (freshId : String)
    (dec : DecodeOutcome) (outcome : StreamOutcome)
    (encode : String → List Nat) (decTok : Nat → String) (i : Nat)
    (hi : i < (summarize_stream st req freshId dec outcome encode
      decTok).2.1.length)
    (hf : ((summarize_stream st req freshId dec outcome encode
      decTok).2.1.getD i dfltMsg).is_final = true) :
    i = (summarize_stream st req freshId dec outcome encode
      decTok).2.1.length - 1 := by
  by_cases hcap : check_capacity st = true
  · by_cases htok : req.token_ids = []
    · by_cases htext : req.original_text ≠ "" ∧
          0 < (pyStrip req.original_text).length
      · have hmsgs : (summarize_stream st req freshId dec outcome encode
            decTok).2.1 = streamEmit outcome encode decTok := by
          simp [summarize_stream, hcap, htok, htext]
        rcases streamEmit_shape outcome encode decTok with ⟨A, x, he, hA⟩
        rw [hmsgs, he] at hi hf ⊢
        exact final_only_last A x hA i hi hf
      · have hmsgs : (summarize_stream st req freshId dec outcome encode
            decTok).2.1 =
            [⟨"No valid input provided for streaming.", true, 0, 0⟩] := by
          simp [summarize_stream, hcap, htok, htext]
        rw [hmsgs] at hi ⊢
        simp at hi ⊢
        omega
    · cases dec with
      | raise m =>
        have hmsgs : (summarize_stream st req freshId (.raise m) outcome encode
            decTok).2.1 = [] := by
          simp [summarize_stream, hcap, htok]
        rw [hmsgs] at hi
        simp at hi
      | ok t =>
        have hmsgs : (summarize_stream st req freshId (.ok t) outcome encode
            decTok).2.1 = streamEmit outcome encode decTok := by
          simp [summarize_stream, hcap, htok]
        rcases streamEmit_shape outcome encode decTok with ⟨A, x, he, hA⟩
        rw [hmsgs, he] at hi hf ⊢
        exact final_only_last A x hA i hi hf
  · have hc : check_capacity st = false := by
      revert hcap; cases check_capacity st <;> simp
    have hmsgs : (summarize_stream st req freshId dec outcome encode
        decTok).2.1 = [] := by
      simp [summarize_stream, hc]
    rw [hmsgs] at hi
    simp at hi

/-- C7, witness: the absorbing-terminal theorem applied to a concrete stream
with empty model output, whose single message is terminal. -/
theorem C7_witness :
    (0 : Nat) = (summarize_stream initState ⟨[], "abc", 0, "w7"⟩ "f" (.ok "")
        .empty (fun _ => []) (fun _ => "")).2.1.length - 1 :=
  C7_terminal_absorbing initState ⟨[], "abc", 0, "w7"⟩ "f" (.ok "") .empty
    (fun _ => []) (fun _ => "") 0 (by decide) (by decide)

/-- Writing a key and reading it back yields the written value (redis SET
then GET). -/
theorem cacheGet_cacheSet_same {α : Type} (s : CacheStore α) (k : String)
    (v : α) : cacheGet (cacheSet s k v) k = some v := by
  simp [cacheGet, cacheSet, List.find?_cons]

/-- The clamped token ceiling never exceeds the hard ceiling 1024. -/
theorem clamp_max_tokens_le (mt : Int) : clamp_max_tokens mt ≤ 1024 := by
  unfold clamp_max_tokens
  split
  · rw [Int.min_def]
    split <;> omega
  · omega

/-- C8: for every Tokenize call, `max_tokens` is clamped to the hard ceiling
1024 with 1024 as the default when unspecified (0); a text whose token
count exceeds the clamped `max_tokens` yields `was_truncated=true` and a
`truncated_text` whose re-encoding has at most `max_tokens` ids (given that
the external tokenizer re-encodes the decoded truncated id sequence to
itself); and truncation is detected exactly by comparing the output length
to the ceiling. -/
theorem C8_tokenize_truncation
    (tok : Tok) (knownModels : List String) (defaultModel : String)
    (readErr writeErr : Bool) (req : TokenizeRequest)
    (hlen : clamp_max_tokens req.max_tokens <
      (tok.encode req.include_special_tokens req.text).length)
    (hrt : tok.encode req.include_special_tokens
        (tok.decodeIds true ((tok.encode req.include_special_tokens req.text).take
          (clamp_max_tokens req.max_tokens))) =
      (tok.encode req.include_special_tokens req.text).take
        (clamp_max_tokens req.max_tokens)) :
    clamp_max_tokens req.max_tokens ≤ 1024 ∧
    clamp_max_tokens 0 = 1024 ∧
    (tokenize tok knownModels defaultModel none readErr writeErr
      req).1.was_truncated = true ∧
    (tok.encode req.include_special_tokens
        (tokenize tok knownModels defaultModel none readErr writeErr
          req).1.truncated_text).length ≤ clamp_max_tokens req.max_tokens ∧
    ((tokenize tok knownModels defaultModel none readErr writeErr
        req).1.was_truncated = true ↔
      clamp_max_tokens req.max_tokens ≤
        (tokenize tok knownModels defaultModel none readErr writeErr
          req).1.token_ids.length) := by
  have hresp : (tokenize tok knownModels defaultModel none readErr writeErr
      req).1 = tokenize_compute tok
        (actualModel knownModels defaultModel req.model_name) req := rfl
  have htklen : ((tok.encode req.include_special_tokens req.text).take
      (clamp_max_tokens req.max_tokens)).length =
      clamp_max_tokens req.max_tokens := by
    rw [List.length_take]
    omega
  have hwt : (tokenize_compute tok
      (actualModel knownModels defaultModel req.model_name) req).was_truncated =
      true := by
    simp only [tokenize_compute, decide_eq_true_eq]
    omega
  have htt : (tokenize_compute tok
      (actualModel knownModels defaultModel req.model_name) req).truncated_text =
      tok.decodeIds true ((tok.encode req.include_special_tokens req.text).take
        (clamp_max_tokens req.max_tokens)) := by
    simp only [tokenize_compute]
    rw [if_neg]
    simp only [decide_eq_true_eq, Decidable.not_not]
    omega
  refine ⟨clamp_max_tokens_le req.max_tokens, rfl, ?_, ?_, ?_⟩
  · rw [hresp, hwt]
  · rw [hresp, htt, hrt, htklen]
  · rw [hresp, hwt]
    have hids : (tokenize_compute tok
        (actualModel knownModels defaultModel req.model_name) req).token_ids =
        (tok.encode req.include_special_tokens req.text).take
          (clamp_max_tokens req.max_tokens) := rfl
    rw [hids, htklen]
    simp

/-- C8, witness: the truncation theorem applied to the character tokenizer
on an 11-character text with `max_tokens=3`. -/
theorem C8_witness :
    (tokenize charTok [] "bart" none false false
      ⟨"hello world", "bart", 3, false⟩).1.was_truncated = true :=
  (C8_tokenize_truncation charTok [] "bart" false false
    ⟨"hello world", "bart", 3, false⟩ (by decide) (by decide)).2.2.1

/-- Evaluation of `Tokenize` on a configured, error-free cache when the key
is present: the cached payload is returned annotated "hit" and the store is
unchanged. -/
theorem tokenize_hit (tok : Tok) (knownModels : List String)
    (defaultModel : String) (s : CacheStore CachedTok) (req : TokenizeRequest)
    (c : CachedTok) (we : Bool)
    (hhit : cacheGet s (cache_key "tokenize" req.text
      (actualModel knownModels defaultModel req.model_name)
      (toString req.max_tokens ++ "|" ++ toString req.include_special_tokens)) =
      some c) :
    tokenize tok knownModels defaultModel (some s) false we req =
      (⟨c.token_ids, c.token_strings, c.token_ids.length, c.truncated_text,
        c.was_truncated, actualModel knownModels defaultModel req.model_name,
        "hit", true, ""⟩, some s) := by
  simp only [tokenize, hhit, Bool.false_eq_true, if_false]

/-- Evaluation of `Tokenize` on a configured, error-free cache when the key
is absent: the result is computed, annotated "miss", and written back. -/
theorem tokenize_miss (tok : Tok) (knownModels : List String)
    (defaultModel : String) (s : CacheStore CachedTok) (req : TokenizeRequest)
    (habs : cacheGet s (cache_key "tokenize" req.text
      (actualModel knownModels defaultModel req.model_name)
      (toString req.max_tokens ++ "|" ++ toString req.include_special_tokens)) =
      none) :
    tokenize tok knownModels defaultModel (some s) false false req =
      (tokenize_compute tok
        (actualModel knownModels defaultModel req.model_name) req,
       some (cacheSet s (cache_key "tokenize" req.text
          (actualModel knownModels defaultModel req.model_name)
          (toString req.max_tokens ++ "|" ++
            toString req.include_special_tokens))
        ⟨(tokenize_compute tok
            (actualModel knownModels defaultModel req.model_name) req).token_ids,
          (tokenize_compute tok
            (actualModel knownModels defaultModel req.model_name) req).token_strings,
          (tokenize_compute tok
            (actualModel knownModels defaultModel req.model_name) req).truncated_text,
          (tokenize_compute tok
            (actualModel knownModels defaultModel req.model_name) req).was_truncated⟩)) := by
  simp only [tokenize, habs, Bool.false_eq_true, if_false]

/-- C9: with a cache configured and the entry not yet present, two identical
Tokenize calls yield `cache_status="miss"` then `cache_status="hit"`, both
succeed, and both responses carry identical `token_ids`.  (The cache key is
a function of the request fields alone, so identical inputs always derive
the identical key.) -/
theorem C9_cache_read_through
    (tok : Tok) (knownModels : List String) (defaultModel : String)
    (s : CacheStore CachedTok) (req : TokenizeRequest)
    (habs : cacheGet s (cache_key "tokenize" req.text
      (actualModel knownModels defaultModel req.model_name)
      (toString req.max_tokens ++ "|" ++ toString req.include_special_tokens)) =
      none) :
    (tokenize tok knownModels defaultModel (some s) false false
      req).1.cache_status = "miss" ∧
    (tokenize tok knownModels defaultModel
      (tokenize tok knownModels defaultModel (some s) false false req).2
      false false req).1.cache_status = "hit" ∧
    (tokenize tok knownModels defaultModel
      (tokenize tok knownModels defaultModel (some s) false false req).2
      false false req).1.token_ids =
      (tokenize tok knownModels defaultModel (some s) false false
        req).1.token_ids ∧
    (tokenize tok knownModels defaultModel (some s) false false
      req).1.success = true ∧
    (tokenize tok knownModels defaultModel
      (tokenize tok knownModels defaultModel (some s) false false req).2
      false false req).1.success = true := by
  have h1 := tokenize_miss tok knownModels defaultModel s req habs
  have h2 := tokenize_hit tok knownModels defaultModel
    (cacheSet s (cache_key "tokenize" req.text
      (actualModel knownModels defaultModel req.model_name)
      (toString req.max_tokens ++ "|" ++ toString req.include_special_tokens))
      ⟨(tokenize_compute tok
          (actualModel knownModels defaultModel req.model_name) req).token_ids,
        (tokenize_compute tok
          (actualModel knownModels defaultModel req.model_name) req).token_strings,
        (tokenize_compute tok
          (actualModel knownModels defaultModel req.model_name) req).truncated_text,
        (tokenize_compute tok
          (actualModel knownModels defaultModel req.model_name) req).was_truncated⟩)
    req _ false (cacheGet_cacheSet_same _ _ _)
  simp [h1, h2]
  exact ⟨rfl, rfl⟩

/-- C9, witness: the read-through theorem applied to the character tokenizer
with an empty cache store. -/
theorem C9_witness :
    (tokenize charTok [] "m"
      (tokenize charTok [] "m" (some []) false false
        ⟨"ab", "m", 0, true⟩).2 false false
      ⟨"ab", "m", 0, true⟩).1.cache_status = "hit" :=
  (C9_cache_read_through charTok [] "m" [] ⟨"ab", "m", 0, true⟩ rfl).2.1

/-- C10, counterexample: with no Cache Store configured, the Tokenize
response's `cache_status` is "miss", not the claimed "disabled" — the code
never produces a distinct disabled marker (main.py:113 initializes the
status to "miss" and nothing changes it when `redis_client` is absent). -/
theorem C10_counterexample :
    (tokenize charTok [] "m" none false false
      ⟨"hello", "m", 0, false⟩).1.cache_status = "miss" ∧
    ¬ (tokenize charTok [] "m" none false false
      ⟨"hello", "m", 0, false⟩).1.cache_status = "disabled" := by decide

/-- C10, amended: for every Tokenize or Detokenize call, a Cache Store error
on read degrades to the computed miss result, a Cache Store error on write
never alters the response, and the request always succeeds; the response's
`cache_status` is "miss" both on a miss and when no Cache Store is
configured (no distinct "disabled" marker is emitted). -/
theorem C10_cache_degradation
    (tok : Tok) (knownModels : List String) (defaultModel : String)
    (s : CacheStore CachedTok) (sd : CacheStore CachedDetok)
    (re we : Bool) (req : TokenizeRequest) (dreq : DetokenizeRequest) :
    ((tokenize tok knownModels defaultModel (some s) true we req).1 =
      tokenize_compute tok
        (actualModel knownModels defaultModel req.model_name) req) ∧
    ((tokenize tok knownModels defaultModel (some s) re true req).1 =
      (tokenize tok knownModels defaultModel (some s) re false req).1) ∧
    ((tokenize tok knownModels defaultModel none re we req).1 =
      tokenize_compute tok
        (actualModel knownModels defaultModel req.model_name) req) ∧
    (tokenize_compute tok
      (actualModel knownModels defaultModel req.model_name) req).success =
        true ∧
    (tokenize_compute tok
      (actualModel knownModels defaultModel req.model_name) req).cache_status =
        "miss" ∧
    ((detokenize tok knownModels defaultModel (some sd) true we dreq).1 =
      detokenize_compute tok
        (actualModel knownModels defaultModel dreq.model_name) dreq) ∧
    ((detokenize tok knownModels defaultModel (some sd) re true dreq).1 =
      (detokenize tok knownModels defaultModel (some sd) re false dreq).1) ∧
    ((detokenize tok knownModels defaultModel none re we dreq).1 =
      detokenize_compute tok
        (actualModel knownModels defaultModel dreq.model_name) dreq) ∧
    (detokenize_compute tok
      (actualModel knownModels defaultModel dreq.model_name) dreq).success =
        true ∧
    (detokenize_compute tok
      (actualModel knownModels defaultModel dreq.model_name) dreq).cache_status =
        "miss" := by
  refine ⟨rfl, ?_, rfl, rfl, rfl, rfl, ?_, rfl, rfl, rfl⟩
  · cases re with
    | true => rfl
    | false =>
      rcases hc : cacheGet s (cache_key "tokenize" req.text
        (actualModel knownModels defaultModel req.model_name)
        (toString req.max_tokens ++ "|" ++
          toString req.include_special_tokens)) with _ | c
      · simp only [tokenize, hc, Bool.false_eq_true, if_false]
      · simp only [tokenize, hc, Bool.false_eq_true, if_false]
  · cases re with
    | true => rfl
    | false =>
      rcases hc : cacheGet sd (cache_key "detokenize" (toString dreq.token_ids)
        (actualModel knownModels defaultModel dreq.model_name)
        (toString dreq.skip_special_tokens)) with _ | c
      · simp only [detokenize, hc, Bool.false_eq_true, if_false]
      · simp only [detokenize, hc, Bool.false_eq_true, if_false]

end AISummary
